import Mathlib

/-!
Shallow embedding of the SLADE database connection-context module
(src/General/Database.cpp): the connection context with its prepared
statement cache, the transaction guard, and the thread-to-context
registry with its global-resolution procedure.

Machine pointers are modelled by natural-number identities; the external
SQLite engine is modelled only as far as the claims need it (autocommit
state for transactions, a tiny relational store for the EXISTS query,
and a rows-modified oracle for exec). Dereferencing an absent (null)
connection handle is modelled explicitly as the outcome `nullDeref`.
-/

namespace SladeDb

/-- Outcome of an operation that in C++ may dereference a null connection
pointer (undefined behaviour, modelled explicitly) or raise an engine
exception. -/
inductive ExecOutcome (α : Type) where
  | ok (a : α)
  | nullDeref
  | sqlError (msg : String)
deriving Repr, DecidableEq

/-- A SQLite connection handle as the claims need it: a pointer identity
and the engine's autocommit flag (false while a transaction is active),
plus a counter of BEGIN statements the engine has executed on it, kept
so that "issues no new BEGIN" is observable. -/
structure Conn where
  handle : Nat
  autocommit : Bool
  begins : Nat
deriving Repr, DecidableEq

/-- A compiled SQLite statement: pointer identity, which connection it was
compiled against (`writes` = read-write), its SQL text, and whether it has
been stepped since creation or the last reset. -/
structure Stmt where
  handle : Nat
  writes : Bool
  sql : String
  stepped : Bool
deriving Repr, DecidableEq

/-- The environment of effects outside the module's control: whether the
SQLite::Database constructor succeeds for the read-only and read-write
opens, and which SQL texts compile. -/
structure Env where
  roOpenOk : Bool
  rwOpenOk : Bool
  compiles : String → Bool
  execRows : String → Nat

/-- database::Context (Database.cpp): captured owning thread id, file path,
the read-only and read-write connections (absent = null unique_ptr),
the id-keyed statement cache, and a fresh-handle counter standing for
the allocator. -/
structure Context where
  thread_id : Nat
  file_path : String
  connection_ro : Option Conn
  connection_rw : Option Conn
  cached_queries : List (String × Stmt)
  next_handle : Nat
deriving Repr, DecidableEq

/-- A context as seen from the thread-context registry: its pointer
identity and the thread id captured at construction (what
`isForThisThread` reads through the pointer). -/
structure CtxRef where
  id : Nat
  thread_id : Nat
deriving Repr, DecidableEq

/-- Context::isForThisThread, evaluated for a caller on thread
`callerTid`: compares the context's captured thread id with the calling
thread's id. -/
def CtxRef.isForThisThread (c : CtxRef) (callerTid : Nat) : Bool :=
  c.thread_id == callerTid

/-- database::global() (Database.cpp:324-342): if the calling thread is not
the main thread, scan `thread_contexts` in order and return the first
context created on the calling thread; if none matches, log a warning
(second component `true`) and fall through to the main context
`db_global`. On the main thread, return `db_global` at once. -/
def globalCtx (callerTid mainTid : Nat) (thread_contexts : List CtxRef)
    (db_global : CtxRef) : CtxRef × Bool :=
  if callerTid ≠ mainTid then
    match thread_contexts.find? (fun tc => tc.isForThisThread callerTid) with
    | some tc => (tc, false)
    | none => (db_global, true)
  else
    (db_global, false)

/-- database::registerThreadContext (Database.cpp:381-386): appends the
context to the registry (push_back), with no duplicate check. -/
def registerThreadContext (thread_contexts : List CtxRef) (context : CtxRef) :
    List CtxRef :=
  thread_contexts ++ [context]

/-- database::deregisterThreadContexts (Database.cpp:391-398): removes every
registry entry whose captured thread id equals the calling thread's. -/
def deregisterThreadContexts (thread_contexts : List CtxRef) (callerTid : Nat) :
    List CtxRef :=
  thread_contexts.filter (fun tc => !(tc.isForThisThread callerTid))

/-- The registry-removal loop of database::Context::~Context
(Database.cpp:105-107): walk the indices from the top down and erase every
entry whose pointer equals this context's. -/
def destroyLoop (self : CtxRef) : Nat → List CtxRef → List CtxRef
  | 0, l => l
  | i + 1, l => destroyLoop self i (if l.get? i = some self then l.eraseIdx i else l)

/-- Lookup in the statement cache (std::map keyed by the id string):
the entry for `id`, if present. -/
def lookupQuery (l : List (String × Stmt)) (id : String) : Option Stmt :=
  (l.find? (fun p => p.1 == id)).map (fun p => p.2)

/-- The effect of tryReset applied through the cache to the entry for
`id`: the stored
statement returns to its not-yet-stepped state. -/
def resetQuery (l : List (String × Stmt)) (id : String) : List (String × Stmt) :=
  l.map (fun p => if p.1 == id then (p.1, { p.2 with stepped := false }) else p)

/-- database::Context::close (Database.cpp:137-156): no-op returning true
when already closed (null read-only connection); otherwise clears the
statement cache, releases both connections, clears the file path and
returns true. (The catch branch of the C++ is unreachable: clearing the
map and resetting the unique_ptrs cannot throw.) -/
def Context.close (c : Context) : Bool × Context :=
  if c.connection_ro.isNone then
    (true, c)
  else
    (true, { c with cached_queries := [], connection_ro := none,
                    connection_rw := none, file_path := "" })

/-- database::Context::~Context (Database.cpp:101-108): closes the context,
then removes every entry for it from `thread_contexts`. -/
def Context.destructor (c : Context) (self : CtxRef)
    (thread_contexts : List CtxRef) : Context × List CtxRef :=
  (c.close.2, destroyLoop self thread_contexts.length thread_contexts)

/-- Outcome of database::Context::open: returned true, returned false
(close failed), or a connection constructor threw. -/
inductive OpenResult where
  | success
  | closeFailed
  | threw (msg : String)
deriving Repr, DecidableEq

/-- database::Context::open (Database.cpp:122-132): close first (return
false if that fails); then store the file path and construct the read-only
and then the read-write connection. A constructor may throw (per `Env`),
in which case the exception propagates with the context left as it was at
the throw point. -/
def Context.openCtx (env : Env) (c : Context) (file_path : String) :
    OpenResult × Context :=
  match c.close with
  | (false, c1) => (.closeFailed, c1)
  | (true, c1) =>
    let c2 := { c1 with file_path := file_path }
    if !env.roOpenOk then
      (.threw "cannot open database file read-only", c2)
    else
      let c3 := { c2 with connection_ro := some ⟨c2.next_handle, true, 0⟩,
                          next_handle := c2.next_handle + 1 }
      if !env.rwOpenOk then
        (.threw "cannot open database file read-write", c3)
      else
        (.success, { c3 with connection_rw := some ⟨c3.next_handle, true, 0⟩,
                             next_handle := c3.next_handle + 1 })

/-- database::Context::Context (Database.cpp:90-96): captures the current
thread id and, when given a non-empty path, opens it immediately. -/
def Context.construct (env : Env) (tid : Nat) (file_path : String) : Context :=
  let c : Context := ⟨tid, "", none, none, [], 0⟩
  if file_path ≠ "" then (c.openCtx env file_path).2 else c

/-- database::Context::cachedQuery (Database.cpp:161-171): the cached query
for `id`, reset via `tryReset`, or none when not found (no creation). -/
def Context.cachedQuery (c : Context) (id : String) : Option Stmt × Context :=
  match lookupQuery c.cached_queries id with
  | some st =>
      (some { st with stepped := false },
       { c with cached_queries := resetQuery c.cached_queries id })
  | none => (none, c)

/-- database::Context::cacheQuery (Database.cpp:178-199): return the
existing entry for `id` reset, if present; otherwise return a null pointer
when the read-only connection is absent; otherwise compile `sql` against
the read-write connection when `writes` is set, else the read-only one
(dereferencing the chosen connection), store the statement under `id` and
return it. Compile failures propagate as engine exceptions. -/
def Context.cacheQuery (env : Env) (c : Context) (id : String) (sql : String)
    (writes : Bool) : ExecOutcome (Option Stmt) × Context :=
  match lookupQuery c.cached_queries id with
  | some st =>
      (.ok (some { st with stepped := false }),
       { c with cached_queries := resetQuery c.cached_queries id })
  | none =>
    if c.connection_ro.isNone then
      (.ok none, c)
    else if writes && c.connection_rw.isNone then
      (.nullDeref, c)
    else if !env.compiles sql then
      (.sqlError "SQL compile error", c)
    else
      (.ok (some ⟨c.next_handle, writes, sql, false⟩),
       { c with
           cached_queries :=
             c.cached_queries ++ [(id, ⟨c.next_handle, writes, sql, false⟩)],
           next_handle := c.next_handle + 1 })

/-- database::Context::exec (Database.cpp:206-213): run the query on the
read-write connection and return the number of rows modified, or return 0
(with no error) when there is no read-write connection. -/
def Context.exec (env : Env) (c : Context) (query : String) : ExecOutcome Nat :=
  match c.connection_rw with
  | some _ =>
      if env.compiles query then .ok (env.execRows query)
      else .sqlError "SQL error"
  | none => .ok 0

/-- A table of the relational store: name, column names, and rows given as
column-name/value pairs. Modelled from the spec: the embedded database
engine is an external collaborator; only integer-valued columns are
modelled, as the EXISTS query the core issues needs. -/
structure Table where
  tableName : String
  columns : List String
  rows : List (List (String × Int))
deriving Repr, DecidableEq

/-- The relational store held behind a connection. -/
abbrev Db := List Table

/-- The (first) value of column `col` in a row. -/
def rowValue (row : List (String × Int)) (col : String) : Option Int :=
  (row.find? (fun p => p.1 == col)).map (fun p => p.2)

/-- Modelled from the spec: the engine's evaluation of the query text
SELECT EXISTS(SELECT 1 FROM t WHERE c = v) — an error for a missing table
or column, otherwise whether some row has value `v` in column `c`. -/
def evalExistsQuery (db : Db) (table_name : String) (id_col : String)
    (id : Int) : ExecOutcome Bool :=
  match db.find? (fun t => t.tableName == table_name) with
  | none => .sqlError "no such table"
  | some t =>
      if t.columns.contains id_col then
        .ok (t.rows.any (fun row => rowValue row id_col == some id))
      else .sqlError "no such column"

/-- database::Context::rowIdExists (Database.cpp:219-223): format and run
the EXISTS query through the read-only connection (dereferenced
unconditionally) and test the result. -/
def Context.rowIdExists (db : Db) (c : Context) (table_name : String)
    (id : Int) (id_col : String) : ExecOutcome Bool :=
  match c.connection_ro with
  | none => .nullDeref
  | some _ => evalExistsQuery db table_name id_col id

/-- database::isTransactionActive (Database.cpp:404-407): reads the
engine's autocommit flag through the connection pointer (dereferenced
unconditionally); true iff autocommit is off. -/
def isTransactionActive : Option Conn → ExecOutcome Bool
  | none => .nullDeref
  | some conn => .ok (!conn.autocommit)

/-- Modelled from the spec: the engine's execution of a BEGIN statement —
a nested-begin error when a transaction is already active, otherwise the
transaction becomes active (autocommit off). -/
def execBEGIN (conn : Conn) : ExecOutcome Conn :=
  if conn.autocommit then
    .ok { conn with autocommit := false, begins := conn.begins + 1 }
  else
    .sqlError "cannot start a transaction within a transaction"

/-- database::Transaction: the guard's bound connection pointer and
whether the guard holds an active transaction. -/
structure Transaction where
  connection : Option Conn
  active : Bool
deriving Repr, DecidableEq

/-- Modelled from the spec: Transaction::begin (declared in Database.h,
which is not under src/) issues BEGIN on the bound connection and
transitions the guard to ACTIVE. -/
def Transaction.begin (t : Transaction) : ExecOutcome Transaction :=
  match t.connection with
  | none => .nullDeref
  | some conn =>
    match execBEGIN conn with
    | .ok conn2 => .ok { connection := some conn2, active := true }
    | .sqlError e => .sqlError e
    | .nullDeref => .nullDeref

/-- database::Transaction::beginIfNoActiveTransaction (Database.cpp:74-78):
begin only when the connection reports no active transaction. -/
def Transaction.beginIfNoActiveTransaction (t : Transaction) :
    ExecOutcome Transaction :=
  match isTransactionActive t.connection with
  | .ok active => if !active then t.begin else .ok t
  | .nullDeref => .nullDeref
  | .sqlError e => .sqlError e

/-- Modelled from the spec: the Transaction constructor (declared in
Database.h, not under src/) binds the given connection and, when asked to
begin, does so with begin-if-none-active semantics. -/
def Transaction.construct (connection : Option Conn) (beginNow : Bool) :
    ExecOutcome Transaction :=
  let t : Transaction := { connection := connection, active := false }
  if beginNow then t.beginIfNoActiveTransaction else .ok t

/-- database::Context::beginTransaction (Database.cpp:228-231): construct a
begun Transaction on the read-write or read-only connection per `write`. -/
def Context.beginTransaction (c : Context) (write : Bool) :
    ExecOutcome Transaction :=
  Transaction.construct (if write then c.connection_rw else c.connection_ro) true

/-- One public operation on a connection context. -/
inductive Op where
  | opn (env : Env) (file_path : String)
  | cls
  | cache (env : Env) (id : String) (sql : String) (writes : Bool)
  | lookup (id : String)
  | execOp (env : Env) (sql : String)

/-- The state transition of one operation (outputs discarded). -/
def applyOp (c : Context) : Op → Context
  | .opn env p => (c.openCtx env p).2
  | .cls => c.close.2
  | .cache env id sql w => (Context.cacheQuery env c id sql w).2
  | .lookup id => (c.cachedQuery id).2
  | .execOp _ _ => c

/-- The context reached by a sequence of operations. -/
def run (c : Context) (ops : List Op) : Context :=
  ops.foldl applyOp c

/-- The no-partial-state condition on the two connection handles: both
present or both absent. -/
def consistentConns (c : Context) : Bool :=
  c.connection_ro.isSome == c.connection_rw.isSome

/-- An environment in which the read-write connection constructor does not
throw after the read-only one succeeded. -/
def envSafe (env : Env) : Bool :=
  !env.roOpenOk || env.rwOpenOk

/-- An operation whose open, if any, runs in a safe environment. -/
def Op.safeOpen : Op → Bool
  | .opn env _ => envSafe env
  | _ => true

/-- The cache-lifetime invariant of a context: a closed context (no
read-only connection) holds no cached statements. -/
def InvCache (c : Context) : Prop :=
  c.connection_ro = none → c.cached_queries = []

/-- The context after `n` further identical cacheQuery calls. -/
def afterCalls (env : Env) (id : String) (sql : String) (writes : Bool) :
    Nat → Context → Context
  | 0, c => c
  | n + 1, c => afterCalls env id sql writes n (Context.cacheQuery env c id sql writes).2

end SladeDb

namespace SladeDb

theorem registry_find_none (reg : List CtxRef) (tid : Nat)
    (h : ∀ x ∈ reg, x.thread_id ≠ tid) :
    reg.find? (fun x => x.isForThisThread tid) = none := by
  rw [List.find?_eq_none]
  intro x hx
  simp [CtxRef.isForThisThread, h x hx]

theorem registry_find_first (pre post : List CtxRef) (tc : CtxRef) (tid : Nat)
    (htc : tc.thread_id = tid) (hpre : ∀ x ∈ pre, x.thread_id ≠ tid) :
    (pre ++ tc :: post).find? (fun x => x.isForThisThread tid) = some tc := by
  rw [List.find?_append, registry_find_none pre tid hpre]
  rw [List.find?_cons_of_pos]
  · rfl
  · simp [CtxRef.isForThisThread, htc]

theorem globalCtx_found (callerTid mainTid : Nat) (reg : List CtxRef)
    (g tc : CtxRef) (hne : callerTid ≠ mainTid)
    (hfind : reg.find? (fun x => x.isForThisThread callerTid) = some tc) :
    globalCtx callerTid mainTid reg g = (tc, false) := by
  simp [globalCtx, hne, hfind]

/-- Claim C1: For every call to global resolution: a caller on the main
thread gets the main context at once, the registry not consulted; a caller
on another thread gets the first registry entry (in registry order) whose
captured thread id equals the caller's, with no warning; and when no entry
matches, a warning is logged and the main context is returned. -/
theorem global_resolution_spec (callerTid mainTid : Nat)
    (reg : List CtxRef) (g : CtxRef) :
    (callerTid = mainTid → globalCtx callerTid mainTid reg g = (g, false)) ∧
    (callerTid ≠ mainTid →
      ∀ pre tc post, reg = pre ++ tc :: post →
        tc.thread_id = callerTid →
        (∀ x ∈ pre, x.thread_id ≠ callerTid) →
        globalCtx callerTid mainTid reg g = (tc, false)) ∧
    (callerTid ≠ mainTid →
      (∀ x ∈ reg, x.thread_id ≠ callerTid) →
      globalCtx callerTid mainTid reg g = (g, true)) := by
  refine ⟨fun h => by simp [globalCtx, h], ?_, ?_⟩
  · intro hne pre tc post hreg htc hpre
    subst hreg
    exact globalCtx_found callerTid mainTid _ g tc hne
      (registry_find_first pre post tc callerTid htc hpre)
  · intro hne hnone
    simp [globalCtx, hne, registry_find_none reg callerTid hnone]

theorem global_resolution_spec_witness :
    globalCtx 0 0 [⟨1, 5⟩] ⟨9, 0⟩ = (⟨9, 0⟩, false) ∧
    globalCtx 5 0 [⟨1, 5⟩] ⟨9, 0⟩ = (⟨1, 5⟩, false) ∧
    globalCtx 7 0 [⟨1, 5⟩] ⟨9, 0⟩ = (⟨9, 0⟩, true) :=
  ⟨(global_resolution_spec 0 0 [⟨1, 5⟩] ⟨9, 0⟩).1 rfl,
   (global_resolution_spec 5 0 [⟨1, 5⟩] ⟨9, 0⟩).2.1 (by decide) [] ⟨1, 5⟩ []
     rfl rfl (by intro x hx; cases hx),
   (global_resolution_spec 7 0 [⟨1, 5⟩] ⟨9, 0⟩).2.2 (by decide)
     (by intro x hx; fin_cases hx; decide)⟩

/-- Claim C5 counterexample: registering context ⟨1,5⟩ and then context
⟨2,5⟩ for the same thread 5 leaves both in the registry, but resolution
from thread 5 returns the EARLIER registration ⟨1,5⟩, not the later one —
the later registration does not take precedence. -/
theorem register_shadow_counterexample :
    (globalCtx 5 0
        (registerThreadContext (registerThreadContext [] ⟨1, 5⟩) ⟨2, 5⟩)
        ⟨9, 0⟩).1 = ⟨1, 5⟩ ∧
    (globalCtx 5 0
        (registerThreadContext (registerThreadContext [] ⟨1, 5⟩) ⟨2, 5⟩)
        ⟨9, 0⟩).1 ≠ ⟨2, 5⟩ := by
  decide

/-- Claim C5 (amended): registration appends the new entry with no
duplicate check, lookup returns the first match by thread identity, and
therefore the EARLIER registration takes precedence over (shadows) the
later one, which stays in the registry without replacing it. -/
theorem register_shadow_amended (reg : List CtxRef) (c1 c2 g : CtxRef)
    (tid mainTid : Nat) (hne : tid ≠ mainTid)
    (h1 : c1.thread_id = tid) (_h2 : c2.thread_id = tid)
    (hreg : ∀ x ∈ reg, x.thread_id ≠ tid) :
    globalCtx tid mainTid
        (registerThreadContext (registerThreadContext reg c1) c2) g =
      (c1, false) ∧
    c2 ∈ registerThreadContext (registerThreadContext reg c1) c2 ∧
    c1 ∈ registerThreadContext (registerThreadContext reg c1) c2 := by
  refine ⟨?_, by simp [registerThreadContext], by simp [registerThreadContext]⟩
  have hshape : registerThreadContext (registerThreadContext reg c1) c2 =
      reg ++ c1 :: [c2] := by
    simp [registerThreadContext]
  rw [hshape]
  exact globalCtx_found tid mainTid _ g c1 hne
    (registry_find_first reg [c2] c1 tid h1 hreg)

theorem register_shadow_amended_witness :
    globalCtx 5 0
        (registerThreadContext (registerThreadContext [] ⟨1, 5⟩) ⟨2, 5⟩)
        ⟨9, 0⟩ = (⟨1, 5⟩, false) ∧
    (⟨2, 5⟩ : CtxRef) ∈
      registerThreadContext (registerThreadContext [] ⟨1, 5⟩) ⟨2, 5⟩ ∧
    (⟨1, 5⟩ : CtxRef) ∈
      registerThreadContext (registerThreadContext [] ⟨1, 5⟩) ⟨2, 5⟩ :=
  register_shadow_amended [] ⟨1, 5⟩ ⟨2, 5⟩ ⟨9, 0⟩ 5 0 (by decide) rfl rfl
    (by intro x hx; cases hx)

theorem destroyLoop_not_mem (self : CtxRef) :
    ∀ (n : Nat) (l : List CtxRef), (∀ x ∈ l.drop n, x ≠ self) →
      self ∉ destroyLoop self n l := by
  intro n
  induction n with
  | zero =>
    intro l h hmem
    exact h self (by simpa using hmem) rfl
  | succ i ih =>
    intro l h
    by_cases hi : l.get? i = some self
    · have hlen : i < l.length := by
        have := List.get?_eq_some.mp hi
        exact this.choose
      rw [destroyLoop, if_pos hi]
      apply ih
      intro x hx
      apply h
      rw [List.eraseIdx_eq_take_drop_succ] at hx
      rwa [List.drop_append_of_le_length (by simp [hlen.le]),
        List.drop_take, Nat.sub_self, List.take_zero, List.nil_append] at hx
    · rw [destroyLoop, if_neg hi]
      apply ih
      intro x hx
      by_cases hlen : i < l.length
      · rw [List.drop_eq_getElem_cons hlen] at hx
        rcases List.mem_cons.mp hx with hx | hx
        · intro hcon
          apply hi
          rw [List.get?_eq_getElem?, List.getElem?_eq_getElem hlen]
          exact congrArg some (hx ▸ hcon)
        · exact h x hx
      · rw [List.drop_eq_nil_of_le (Nat.le_of_not_lt hlen)] at hx
        cases hx

/-- Claim C9: destroying a context removes every registry entry for it:
after destruction the registry no longer contains the destroyed context. -/
theorem destructor_removes_registry_entries (c : Context) (self : CtxRef)
    (thread_contexts : List CtxRef) :
    self ∉ (Context.destructor c self thread_contexts).2 := by
  apply destroyLoop_not_mem
  intro x hx
  rw [List.drop_eq_nil_of_le (Nat.le_refl _)] at hx
  cases hx

theorem lookupQuery_reset (l : List (String × Stmt)) (id : String) (st : Stmt)
    (h : lookupQuery l id = some st) :
    lookupQuery (resetQuery l id) id = some { st with stepped := false } := by
  induction l with
  | nil => simp [lookupQuery] at h
  | cons p tl ih =>
    obtain ⟨k, v⟩ := p
    cases hk : (k == id) with
    | true =>
      have hkeq : k = id := by simpa using hk
      subst hkeq
      rw [lookupQuery, List.find?_cons_of_pos _ (by simp)] at h
      simp only [Option.map_some'] at h
      rw [resetQuery, List.map_cons, if_pos (by simp : (((k, v).1 == k) = true)),
        lookupQuery, List.find?_cons_of_pos _ (by simp)]
      injection h with h
      subst h
      simp
    | false =>
      rw [lookupQuery, List.find?_cons_of_neg _ (by simp [hk])] at h
      rw [resetQuery, List.map_cons, if_neg (by simp [hk]),
        lookupQuery, List.find?_cons_of_neg _ (by simp [hk])]
      exact ih h

theorem lookupQuery_append_absent (l : List (String × Stmt)) (id : String)
    (st : Stmt) (h : lookupQuery l id = none) :
    lookupQuery (l ++ [(id, st)]) id = some st := by
  have hfind : l.find? (fun p => p.1 == id) = none := by
    cases hf : l.find? (fun p => p.1 == id) with
    | none => rfl
    | some p =>
      rw [lookupQuery, hf] at h
      simp at h
  rw [lookupQuery, List.find?_append, hfind]
  simp [List.find?]

theorem stmt_reset_self (st : Stmt) (h : st.stepped = false) :
    { st with stepped := false } = st := by
  cases st
  simp_all

theorem cacheQuery_hit (env : Env) (c : Context) (id sql : String) (w : Bool)
    (st : Stmt) (hst : lookupQuery c.cached_queries id = some st) :
    Context.cacheQuery env c id sql w =
      (.ok (some { st with stepped := false }),
       { c with cached_queries := resetQuery c.cached_queries id }) := by
  simp [Context.cacheQuery, hst]

theorem cacheQuery_stable_lookup (env : Env) (c : Context) (id sql : String)
    (w : Bool) (st : Stmt) (hst : lookupQuery c.cached_queries id = some st)
    (hstep : st.stepped = false) :
    (Context.cacheQuery env c id sql w).1 = .ok (some st) ∧
    lookupQuery (Context.cacheQuery env c id sql w).2.cached_queries id =
      some st := by
  rw [cacheQuery_hit env c id sql w st hst]
  refine ⟨by simp [stmt_reset_self st hstep], ?_⟩
  have := lookupQuery_reset c.cached_queries id st hst
  rwa [stmt_reset_self st hstep] at this

theorem afterCalls_lookup (env : Env) (id sql : String) (w : Bool) (st : Stmt)
    (hstep : st.stepped = false) :
    ∀ (n : Nat) (c : Context), lookupQuery c.cached_queries id = some st →
      lookupQuery (afterCalls env id sql w n c).cached_queries id = some st := by
  intro n
  induction n with
  | zero => intro c h; simpa [afterCalls] using h
  | succ m ih =>
    intro c h
    rw [afterCalls]
    exact ih _ (cacheQuery_stable_lookup env c id sql w st h hstep).2

/-- Claim C2: on a context with both connections open, a successful
cacheQuery for a key returns a statement, and the second and every later
cacheQuery for that key returns the very same statement handle, handed
back in its reset, not-yet-stepped state. -/
theorem cacheQuery_same_handle_and_reset (env : Env) (c : Context)
    (id sql : String) (w : Bool) (rc rw : Conn)
    (hro : c.connection_ro = some rc) (hrw : c.connection_rw = some rw)
    (hc : env.compiles sql = true) :
    ∃ st : Stmt, st.stepped = false ∧
      (Context.cacheQuery env c id sql w).1 = .ok (some st) ∧
      ∀ (n : Nat) (env2 : Env) (sql2 : String) (w2 : Bool),
        (Context.cacheQuery env2
            (afterCalls env2 id sql2 w2 n (Context.cacheQuery env c id sql w).2)
            id sql2 w2).1 = .ok (some st) := by
  rcases hlk : lookupQuery c.cached_queries id with _ | st0
  · -- not cached yet: the statement is compiled and stored
    have hmiss : Context.cacheQuery env c id sql w =
        (.ok (some ⟨c.next_handle, w, sql, false⟩),
         { c with
             cached_queries :=
               c.cached_queries ++ [(id, ⟨c.next_handle, w, sql, false⟩)],
             next_handle := c.next_handle + 1 }) := by
      simp [Context.cacheQuery, hlk, hro, hrw, hc]
    refine ⟨⟨c.next_handle, w, sql, false⟩, rfl, by rw [hmiss], ?_⟩
    intro n env2 sql2 w2
    have hl1 : lookupQuery (Context.cacheQuery env c id sql w).2.cached_queries
        id = some ⟨c.next_handle, w, sql, false⟩ := by
      rw [hmiss]
      exact lookupQuery_append_absent c.cached_queries id _ hlk
    exact (cacheQuery_stable_lookup env2 _ id sql2 w2 _
      (afterCalls_lookup env2 id sql2 w2 _ rfl n _ hl1) rfl).1
  · -- already cached: the existing statement is reset and returned
    refine ⟨{ st0 with stepped := false }, rfl, ?_, ?_⟩
    · rw [cacheQuery_hit env c id sql w st0 hlk]
    · intro n env2 sql2 w2
      have hl1 : lookupQuery (Context.cacheQuery env c id sql w).2.cached_queries
          id = some { st0 with stepped := false } := by
        rw [cacheQuery_hit env c id sql w st0 hlk]
        exact lookupQuery_reset c.cached_queries id st0 hlk
      exact (cacheQuery_stable_lookup env2 _ id sql2 w2 _
        (afterCalls_lookup env2 id sql2 w2 _ rfl n _ hl1) rfl).1

theorem cacheQuery_same_handle_and_reset_witness :
    ∃ st : Stmt, st.stepped = false ∧
      (Context.cacheQuery ⟨true, true, fun _ => true, fun _ => 0⟩
          ⟨0, "p", some ⟨0, true, 0⟩, some ⟨1, true, 0⟩, [], 2⟩
          "q" "SELECT 1" false).1 = .ok (some st) ∧
      ∀ (n : Nat) (env2 : Env) (sql2 : String) (w2 : Bool),
        (Context.cacheQuery env2
            (afterCalls env2 "q" sql2 w2 n
              (Context.cacheQuery ⟨true, true, fun _ => true, fun _ => 0⟩
                ⟨0, "p", some ⟨0, true, 0⟩, some ⟨1, true, 0⟩, [], 2⟩
                "q" "SELECT 1" false).2)
            "q" sql2 w2).1 = .ok (some st) :=
  cacheQuery_same_handle_and_reset ⟨true, true, fun _ => true, fun _ => 0⟩
    ⟨0, "p", some ⟨0, true, 0⟩, some ⟨1, true, 0⟩, [], 2⟩ "q" "SELECT 1" false
    ⟨0, true, 0⟩ ⟨1, true, 0⟩ rfl rfl rfl

/-- Claim C3: constructing a begun Transaction guard on a connection with
a transaction already active issues no new BEGIN (the connection, its
begins count included, is unchanged) and raises no fault; on a connection
with no active transaction it issues BEGIN and leaves the transaction
active. -/
theorem transaction_begin_if_none_active (conn : Conn) :
    (conn.autocommit = false →
      Transaction.construct (some conn) true = .ok ⟨some conn, false⟩) ∧
    (conn.autocommit = true →
      Transaction.construct (some conn) true =
        .ok ⟨some ⟨conn.handle, false, conn.begins + 1⟩, true⟩) := by
  constructor
  · intro h
    simp [Transaction.construct, Transaction.beginIfNoActiveTransaction,
      isTransactionActive, h]
  · intro h
    simp [Transaction.construct, Transaction.beginIfNoActiveTransaction,
      isTransactionActive, h, Transaction.begin, execBEGIN]

theorem transaction_begin_if_none_active_witness :
    Transaction.construct (some ⟨0, false, 3⟩) true =
      .ok ⟨some ⟨0, false, 3⟩, false⟩ ∧
    Transaction.construct (some ⟨1, true, 0⟩) true =
      .ok ⟨some ⟨1, false, 1⟩, true⟩ :=
  ⟨(transaction_begin_if_none_active ⟨0, false, 3⟩).1 rfl,
   (transaction_begin_if_none_active ⟨1, true, 0⟩).2 rfl⟩

theorem close_fst (c : Context) : (Context.close c).1 = true := by
  unfold Context.close
  split <;> rfl

theorem close_cache (c : Context) (h : InvCache c) :
    (Context.close c).2.cached_queries = [] := by
  unfold Context.close
  split
  next hro => exact h (Option.isNone_iff_eq_none.mp hro)
  next hro => rfl

theorem close_consistent (c : Context) (h : consistentConns c = true) :
    consistentConns (Context.close c).2 = true := by
  unfold Context.close
  split
  next hro => exact h
  next hro => rfl

theorem openCtx_cache (env : Env) (c : Context) (p : String) (h : InvCache c) :
    (Context.openCtx env c p).2.cached_queries = [] := by
  have hc := close_cache c h
  have hfst := close_fst c
  unfold Context.openCtx
  cases hcl : Context.close c with
  | mk ok cc =>
    rw [hcl] at hc hfst
    simp only at hc hfst
    subst hfst
    cases hro : env.roOpenOk <;> cases hrw : env.rwOpenOk <;>
      simp [hro, hrw, hc]

theorem openCtx_consistent (env : Env) (c : Context) (p : String)
    (h : consistentConns c = true) (hsafe : envSafe env = true) :
    consistentConns (Context.openCtx env c p).2 = true := by
  have hcc := close_consistent c h
  have hfst := close_fst c
  unfold Context.openCtx
  cases hcl : Context.close c with
  | mk ok cc =>
    rw [hcl] at hcc hfst
    simp only at hcc hfst
    subst hfst
    cases hro : env.roOpenOk with
    | false =>
      simp only [consistentConns] at hcc ⊢
      simp [hro, hcc]
    | true =>
      have hrw : env.rwOpenOk = true := by
        unfold envSafe at hsafe
        rw [hro] at hsafe
        simpa using hsafe
      simp [hro, hrw, consistentConns]

theorem cacheQuery_conns (env : Env) (c : Context) (id sql : String) (w : Bool) :
    (Context.cacheQuery env c id sql w).2.connection_ro = c.connection_ro ∧
    (Context.cacheQuery env c id sql w).2.connection_rw = c.connection_rw := by
  unfold Context.cacheQuery
  cases lookupQuery c.cached_queries id with
  | some st => simp
  | none => split_ifs <;> simp

theorem cachedQuery_conns (c : Context) (id : String) :
    (Context.cachedQuery c id).2.connection_ro = c.connection_ro ∧
    (Context.cachedQuery c id).2.connection_rw = c.connection_rw := by
  unfold Context.cachedQuery
  cases lookupQuery c.cached_queries id <;> simp

theorem applyOp_consistent (c : Context) (op : Op)
    (h : consistentConns c = true) (hop : op.safeOpen = true) :
    consistentConns (applyOp c op) = true := by
  cases op with
  | opn env p => exact openCtx_consistent env c p h (by simpa [Op.safeOpen] using hop)
  | cls => exact close_consistent c h
  | cache env id sql w =>
    have hc := cacheQuery_conns env c id sql w
    unfold consistentConns at h ⊢
    rw [show applyOp c (.cache env id sql w) = (Context.cacheQuery env c id sql w).2
      from rfl, hc.1, hc.2]
    exact h
  | lookup id =>
    have hc := cachedQuery_conns c id
    unfold consistentConns at h ⊢
    rw [show applyOp c (.lookup id) = (Context.cachedQuery c id).2 from rfl,
      hc.1, hc.2]
    exact h
  | execOp env sql => exact h

theorem run_consistent : ∀ (ops : List Op) (c : Context),
    consistentConns c = true → (∀ op ∈ ops, op.safeOpen = true) →
    consistentConns (run c ops) = true := by
  intro ops
  induction ops with
  | nil => intro c h _; exact h
  | cons op tl ih =>
    intro c h hops
    exact ih (applyOp c op) (applyOp_consistent c op h (hops op (by simp)))
      (fun o ho => hops o (by simp [ho]))

theorem applyOp_invCache (c : Context) (op : Op) (h : InvCache c) :
    InvCache (applyOp c op) := by
  cases op with
  | opn env p => intro _; exact openCtx_cache env c p h
  | cls => intro _; exact close_cache c h
  | cache env id sql w =>
    by_cases hro : c.connection_ro = none
    · have hcq := h hro
      intro _
      simp [applyOp, Context.cacheQuery, hcq, lookupQuery, hro]
    · intro hro2
      exfalso
      have hro2' : (Context.cacheQuery env c id sql w).2.connection_ro = none :=
        hro2
      exact hro (((cacheQuery_conns env c id sql w).1).symm.trans hro2')
  | lookup id =>
    by_cases hro : c.connection_ro = none
    · have hcq := h hro
      intro _
      simp [applyOp, Context.cachedQuery, hcq, lookupQuery]
    · intro hro2
      exfalso
      have hro2' : (Context.cachedQuery c id).2.connection_ro = none := hro2
      exact hro (((cachedQuery_conns c id).1).symm.trans hro2')
  | execOp env sql => exact h

theorem run_invCache : ∀ (ops : List Op) (c : Context),
    InvCache c → InvCache (run c ops) := by
  intro ops
  induction ops with
  | nil => intro c h; exact h
  | cons op tl ih => intro c h; exact ih (applyOp c op) (applyOp_invCache c op h)

theorem construct_consistent (env : Env) (tid : Nat) (path : String)
    (hsafe : envSafe env = true) :
    consistentConns (Context.construct env tid path) = true := by
  unfold Context.construct
  split
  · exact openCtx_consistent env _ path rfl hsafe
  · rfl

theorem construct_invCache (env : Env) (tid : Nat) (path : String) :
    InvCache (Context.construct env tid path) := by
  unfold Context.construct
  split
  · intro _
    exact openCtx_cache env _ path (fun _ => rfl)
  · intro _
    rfl

/-- Claim C4: along every operation sequence from construction, close
succeeds and afterwards cachedQuery returns none for every id: close
clears the statement cache before releasing the connections, and a closed
context never holds cached statements. -/
theorem close_invalidates_cache (env0 : Env) (tid : Nat) (path : String)
    (ops : List Op) (id : String) :
    (Context.close (run (Context.construct env0 tid path) ops)).1 = true ∧
    (Context.cachedQuery
        (Context.close (run (Context.construct env0 tid path) ops)).2 id).1 =
      none := by
  refine ⟨close_fst _, ?_⟩
  have hinv := run_invCache ops (Context.construct env0 tid path)
    (construct_invCache env0 tid path)
  have hcache := close_cache _ hinv
  simp [Context.cachedQuery, hcache, lookupQuery]

/-- Claim C6 counterexample: in an environment where the read-write
connection constructor throws after the read-only one succeeded, open
leaves the context with only the read-only connection present — the
handles are not both-present-or-both-absent. -/
theorem conn_handles_counterexample :
    consistentConns
        (run (Context.construct ⟨true, false, fun _ => true, fun _ => 0⟩ 0 "")
          [Op.opn ⟨true, false, fun _ => true, fun _ => 0⟩ "slade.sqlite"]) =
      false := by
  rfl

/-- Claim C6 (amended): the two connection handles are both present or
both absent across construction and every operation sequence, provided
the read-write connection constructor never throws after the read-only
one succeeded; when it does throw there, open leaves only the read-only
connection present. -/
theorem conn_handles_consistent (env0 : Env) (tid : Nat) (path : String)
    (ops : List Op) (h0 : envSafe env0 = true)
    (hops : ∀ op ∈ ops, op.safeOpen = true) :
    consistentConns (run (Context.construct env0 tid path) ops) = true :=
  run_consistent ops _ (construct_consistent env0 tid path h0) hops

theorem conn_handles_consistent_witness :
    consistentConns
        (run (Context.construct ⟨true, true, fun _ => true, fun _ => 1⟩ 0 "db")
          [Op.opn ⟨true, true, fun _ => true, fun _ => 1⟩ "db2", Op.cls,
           Op.cache ⟨true, true, fun _ => true, fun _ => 1⟩ "q" "s" false,
           Op.lookup "q",
           Op.execOp ⟨true, true, fun _ => true, fun _ => 1⟩ "s"]) = true :=
  conn_handles_consistent ⟨true, true, fun _ => true, fun _ => 1⟩ 0 "db" _ rfl
    (by intro op hop; fin_cases hop <;> rfl)

/-- Claim C7: exec on a context with no read-write connection returns 0
and raises no error; with a read-write connection it returns the engine's
count of rows modified by the statement. -/
theorem exec_rows_or_noop (env : Env) (c : Context) (query : String) :
    (c.connection_rw = none → Context.exec env c query = .ok 0) ∧
    (∀ conn, c.connection_rw = some conn → env.compiles query = true →
      Context.exec env c query = .ok (env.execRows query)) := by
  constructor
  · intro h
    simp [Context.exec, h]
  · intro conn h hc
    simp [Context.exec, h, hc]

theorem exec_rows_or_noop_witness :
    Context.exec ⟨true, true, fun _ => true, fun _ => 7⟩
        ⟨0, "", none, none, [], 0⟩ "DELETE FROM archive_file" = .ok 0 ∧
    Context.exec ⟨true, true, fun _ => true, fun _ => 7⟩
        ⟨0, "p", some ⟨0, true, 0⟩, some ⟨1, true, 0⟩, [], 2⟩
        "DELETE FROM archive_file" = .ok 7 :=
  ⟨(exec_rows_or_noop ⟨true, true, fun _ => true, fun _ => 7⟩
      ⟨0, "", none, none, [], 0⟩ "DELETE FROM archive_file").1 rfl,
   (exec_rows_or_noop ⟨true, true, fun _ => true, fun _ => 7⟩
      ⟨0, "p", some ⟨0, true, 0⟩, some ⟨1, true, 0⟩, [], 2⟩
      "DELETE FROM archive_file").2 ⟨1, true, 0⟩ rfl rfl⟩

/-- Claim C8: on an open context, for an existing table and id column,
rowIdExists answers true iff a row with the given id exists, returns
without raising for every id value, evaluates through the read-only
connection, and is unaffected by the read-write connection. -/
theorem rowIdExists_spec (db : Db) (c : Context) (conn : Conn) (tbl : Table)
    (table_name id_col : String) (id : Int)
    (hro : c.connection_ro = some conn)
    (htbl : db.find? (fun t => t.tableName == table_name) = some tbl)
    (hcol : tbl.columns.contains id_col = true) :
    Context.rowIdExists db c table_name id id_col =
      .ok (tbl.rows.any (fun row => rowValue row id_col == some id)) ∧
    ((tbl.rows.any (fun row => rowValue row id_col == some id)) = true ↔
      ∃ row ∈ tbl.rows, rowValue row id_col = some id) ∧
    (∀ x, Context.rowIdExists db { c with connection_rw := x } table_name id
        id_col = Context.rowIdExists db c table_name id id_col) := by
  refine ⟨?_, ?_, ?_⟩
  · have hmem : id_col ∈ tbl.columns := by simpa using hcol
    simp [Context.rowIdExists, hro, evalExistsQuery, htbl, hmem]
  · simp [List.any_eq_true]
  · intro x
    rfl

theorem rowIdExists_spec_witness :
    Context.rowIdExists [⟨"archive_file", ["id"], [[("id", 42)]]⟩]
        ⟨0, "p", some ⟨0, true, 0⟩, some ⟨1, true, 0⟩, [], 2⟩
        "archive_file" 42 "id" =
      .ok ([[("id", (42 : Int))]].any (fun row => rowValue row "id" == some 42)) ∧
    (([[("id", (42 : Int))]].any (fun row => rowValue row "id" == some 42)) =
        true ↔
      ∃ row ∈ [[("id", (42 : Int))]], rowValue row "id" = some 42) ∧
    (∀ x, Context.rowIdExists [⟨"archive_file", ["id"], [[("id", 42)]]⟩]
        { (⟨0, "p", some ⟨0, true, 0⟩, some ⟨1, true, 0⟩, [], 2⟩ : Context) with
            connection_rw := x } "archive_file" 42 "id" =
      Context.rowIdExists [⟨"archive_file", ["id"], [[("id", 42)]]⟩]
        ⟨0, "p", some ⟨0, true, 0⟩, some ⟨1, true, 0⟩, [], 2⟩
        "archive_file" 42 "id") :=
  rowIdExists_spec [⟨"archive_file", ["id"], [[("id", 42)]]⟩]
    ⟨0, "p", some ⟨0, true, 0⟩, some ⟨1, true, 0⟩, [], 2⟩ ⟨0, true, 0⟩
    ⟨"archive_file", ["id"], [[("id", 42)]]⟩ "archive_file" "id" 42
    rfl rfl rfl

/-- Claim C10: on a closed context, rowIdExists and beginTransaction
dereference the absent connection handle (no guarded branch for the
closed state), while exec guards and returns 0; an open context is a
precondition for the former two. -/
theorem closed_context_operations (c : Context) (db : Db)
    (table_name id_col : String) (id : Int) (w : Bool) (env : Env)
    (sql : String) (hro : c.connection_ro = none)
    (hrw : c.connection_rw = none) :
    Context.rowIdExists db c table_name id id_col = .nullDeref ∧
    Context.beginTransaction c w = .nullDeref ∧
    Context.exec env c sql = .ok 0 := by
  refine ⟨by simp [Context.rowIdExists, hro], ?_, by simp [Context.exec, hrw]⟩
  cases w
  · simp [Context.beginTransaction, Transaction.construct,
      Transaction.beginIfNoActiveTransaction, isTransactionActive, hro]
  · simp [Context.beginTransaction, Transaction.construct,
      Transaction.beginIfNoActiveTransaction, isTransactionActive, hrw]

theorem closed_context_operations_witness :
    Context.rowIdExists [] ⟨0, "", none, none, [], 0⟩ "archive_file" 1 "id" =
      .nullDeref ∧
    Context.beginTransaction ⟨0, "", none, none, [], 0⟩ true = .nullDeref ∧
    Context.exec ⟨true, true, fun _ => true, fun _ => 3⟩
        ⟨0, "", none, none, [], 0⟩ "q" = .ok 0 :=
  closed_context_operations ⟨0, "", none, none, [], 0⟩ [] "archive_file" "id" 1
    true ⟨true, true, fun _ => true, fun _ => 3⟩ "q" rfl rfl

end SladeDb
